import Mathlib

/-!
Verification of the session layer `SerializationTransport`
(src/src/common/transport/serialization_transport.cpp).

The operations of the session layer are shallowly embedded as pure
functions over an explicit session state.  Each function mirrors the
control flow of the corresponding C++ member function; the concurrent
pieces (the blocking wait in `send`, the demultiplex callback running on
the link-layer thread, the open/dispatch-thread startup handshake) are
modelled by explicit state passing, an oracle listing the payloads the
link layer delivers during the wait, and a small interleaving transition
system for the handshake.
-/

/-- Bytes are modelled as natural numbers (values 0..255 in the program). -/
abbrev Byte := Nat

/-- Modelled from the spec: the one-byte discriminator tag for incoming
response payloads (`serialization_pkt_type_t` lives in a header outside the
session layer; only the identity and distinctness of the tag values matter). -/
def SERIALIZATION_RESPONSE : Byte := 1

/-- Modelled from the spec: the one-byte discriminator tag for incoming
event payloads. -/
def SERIALIZATION_EVENT : Byte := 2

/-- The success status code (`NRF_SUCCESS`). -/
def NRF_SUCCESS : Nat := 0

/-- Modelled from the spec: the generic serialization-transport error code
(returned for double-spawn and self-close-from-dispatch-thread; the numeric
value lives in a header outside the session layer, only distinctness
matters). -/
def NRF_ERROR_SD_RPC_SERIALIZATION_TRANSPORT : Nat := 0x8100

/-- Modelled from the spec: the serialization-transport invalid-state error
code (returned for `send` while closed and for a join failure in `close`). -/
def NRF_ERROR_SD_RPC_SERIALIZATION_TRANSPORT_INVALID_STATE : Nat := 0x8101

/-- Modelled from the spec: the already-open error code of `open`. -/
def NRF_ERROR_SD_RPC_SERIALIZATION_TRANSPORT_ALREADY_OPEN : Nat := 0x8102

/-- Modelled from the spec: the already-closed error code of `close`. -/
def NRF_ERROR_SD_RPC_SERIALIZATION_TRANSPORT_ALREADY_CLOSED : Nat := 0x8103

/-- Modelled from the spec: the no-response (timeout) error code of `send`. -/
def NRF_ERROR_SD_RPC_SERIALIZATION_TRANSPORT_NO_RESPONSE : Nat := 0x8104

/-- Modelled from the spec: the spec's abstract `InvalidState` status
taxonomy covers double-spawn, self-close-from-dispatch-thread and join
failure; in the code those map to the two concrete codes below. -/
def isInvalidStateCode (c : Nat) : Bool :=
  c == NRF_ERROR_SD_RPC_SERIALIZATION_TRANSPORT ||
  c == NRF_ERROR_SD_RPC_SERIALIZATION_TRANSPORT_INVALID_STATE

/-- The mutable session state of a `SerializationTransport` object:
`isOpen`, `responseReceived`, the shared-pointer reply buffer
(`none` models a null pointer, `some v` a pointer to the vector `v`),
the FIFO event queue (front of the queue is the head of the list),
the `processEvents` flag and whether the event thread is joinable. -/
structure SessionState where
  isOpen : Bool
  responseReceived : Bool
  responseBuffer : Option (List Byte)
  eventQueue : List (List Byte)
  processEvents : Bool
  threadRunning : Bool
deriving Repr, DecidableEq

/-- Overwriting copy `std::copy(src.begin(), src.end(), dst.begin())`:
the first `src.length` elements of `dst` are replaced by `src`
(the program only calls this when `src.length ≤ dst.length`). -/
def copyInto (src dst : List Byte) : List Byte :=
  src ++ dst.drop src.length

/-- `v.resize(n)` on a `std::vector<uint8_t>`: truncate to `n` elements,
padding with zero-initialised elements if `n` exceeds the current size. -/
def resizeTo (n : Nat) (v : List Byte) : List Byte :=
  v.take n ++ List.replicate (n - v.length) 0

/-- The log messages the session layer can emit (taken from the source). -/
def oversizedResponseLog : String :=
  "Received SERIALIZATION_RESPONSE with a packet that is larger than the allocated buffer."

/-- Log message for a response that arrived with no usable reply buffer. -/
def missingBufferLog : String :=
  "Received SERIALIZATION_RESPONSE but command did not provide a buffer for the reply."

/-- Log message for an unrecognised tag. -/
def unknownTagLog : String :=
  "Unknown Nordic Semiconductor vendor specific packet received"

/-- Log message for a timed-out response wait. -/
def noResponseLog : String :=
  "Failed to receive response for command"

/-- The observable effects of one invocation of the demultiplex callback:
the updated session state, the log entries emitted, and which condition
variables were notified. -/
structure ReadEffects where
  state : SessionState
  logs : List String
  notifiedResponse : Bool
  notifiedEvent : Bool
deriving Repr, DecidableEq

/-- `SerializationTransport::readHandler` (lines 268-313), applied to an
inbound payload already split as leading tag byte plus body
(`tag = data[0]`, `body = data[1 .. length-1]`; the split itself is
well defined only for `length ≥ 1`, see `bodyLengthC`). -/
def readHandler (st : SessionState) (tag : Byte) (body : List Byte) :
    ReadEffects :=
  if tag = SERIALIZATION_RESPONSE then
    let bufAndLogs : Option (List Byte) × List String :=
      match st.responseBuffer with
      | some rb =>
        if !rb.isEmpty then
          if body.length ≤ rb.length then
            (some (resizeTo body.length (copyInto body rb)), [])
          else
            (some rb, [oversizedResponseLog])
        else
          (some rb, [missingBufferLog])
      | none => (none, [missingBufferLog])
    { state := { st with responseBuffer := bufAndLogs.1, responseReceived := true }
      logs := bufAndLogs.2
      notifiedResponse := true
      notifiedEvent := false }
  else if tag = SERIALIZATION_EVENT then
    { state := { st with eventQueue := st.eventQueue ++ [body] }
      logs := []
      notifiedResponse := false
      notifiedEvent := true }
  else
    { state := st
      logs := [unknownTagLog]
      notifiedResponse := false
      notifiedEvent := false }

/-- Sequential delivery of a list of inbound payloads (tag, body) by the
link-layer thread: the demultiplex callback runs once per payload, in
order; logs are concatenated and notifications accumulated. -/
def deliverAll (st : SessionState) (payloads : List (Byte × List Byte)) :
    ReadEffects :=
  match payloads with
  | [] => { state := st, logs := [], notifiedResponse := false, notifiedEvent := false }
  | (tag, body) :: rest =>
    let eff := readHandler st tag body
    let effRest := deliverAll eff.state rest
    { state := effRest.state
      logs := eff.logs ++ effRest.logs
      notifiedResponse := eff.notifiedResponse || effRest.notifiedResponse
      notifiedEvent := eff.notifiedEvent || effRest.notifiedEvent }

/-- The `size_t` body-length computation `dataLength = length - 1` of
`readHandler` (line 273), with the unsigned wrap-around of C explicit. -/
def bodyLengthC (length : Nat) : Nat :=
  (length + 2 ^ 64 - 1) % 2 ^ 64

/-- `std::copy(src.begin(), src.end(), dst.begin() + i)`: overwrite the
elements of `dst` at positions `i .. i + src.length - 1` with `src`. -/
def copyAt (dst : List Byte) (i : Nat) (src : List Byte) : List Byte :=
  dst.take i ++ src ++ dst.drop (i + src.length)

/-- The outgoing frame built by `SerializationTransport::send`
(lines 147-149): a vector of `cmdBuffer.size() + 1` zero-initialised
bytes, whose slot 0 is set to the packet type and whose remainder receives
a copy of the command buffer. -/
def framePacket (cmdBuffer : List Byte) (pktType : Byte) : List Byte :=
  let commandBuffer := List.replicate (cmdBuffer.length + 1) 0
  let commandBuffer := commandBuffer.set 0 pktType
  copyAt commandBuffer 1 cmdBuffer

/-- The observable outcome of one call to `send`: the returned status
code, the session state afterwards, the payload handed to the link layer
(`none` when the open-check failed before sending), the log entries
emitted during the call (including those of the demultiplex callback
runs that resolved the wait), and whether the response waiter was
signalled. -/
structure SendResult where
  code : Nat
  state : SessionState
  sentPayload : Option (List Byte)
  logs : List String
  waiterSignaled : Bool
deriving Repr, DecidableEq

/-- `SerializationTransport::send` (lines 131-177).  The concurrent timed
wait is modelled by an oracle: `linkSendCode` is the status the link
layer returns for the transmit, and `arrivals` lists the inbound payloads
(tag, body) the link-layer thread delivers to the demultiplex callback
before the timeout expires.  The wait resolves successfully exactly when
those deliveries leave `responseReceived` set. -/
def send (st : SessionState) (cmdBuffer : List Byte)
    (rspBuffer : Option (List Byte)) (pktType : Byte) (linkSendCode : Nat)
    (arrivals : List (Byte × List Byte)) : SendResult :=
  if !st.isOpen then
    { code := NRF_ERROR_SD_RPC_SERIALIZATION_TRANSPORT_INVALID_STATE
      state := st, sentPayload := none, logs := [], waiterSignaled := false }
  else
    let st1 := { st with responseReceived := false, responseBuffer := rspBuffer }
    let commandBuffer := framePacket cmdBuffer pktType
    if linkSendCode ≠ NRF_SUCCESS then
      { code := linkSendCode, state := st1, sentPayload := some commandBuffer
        logs := [], waiterSignaled := false }
    else
      match rspBuffer with
      | none =>
        { code := NRF_SUCCESS, state := st1, sentPayload := some commandBuffer
          logs := [], waiterSignaled := false }
      | some _ =>
        let eff := deliverAll st1 arrivals
        if eff.state.responseReceived then
          { code := NRF_SUCCESS, state := eff.state
            sentPayload := some commandBuffer, logs := eff.logs
            waiterSignaled := eff.notifiedResponse }
        else
          { code := NRF_ERROR_SD_RPC_SERIALIZATION_TRANSPORT_NO_RESPONSE
            state := eff.state, sentPayload := some commandBuffer
            logs := eff.logs ++ [noResponseLog]
            waiterSignaled := eff.notifiedResponse }

/-- The observable outcome of one call to `open`: the returned status
code, the session state afterwards, and whether the callback sinks were
registered, the link-layer open was invoked, and a dispatch thread was
spawned during the call. -/
structure OpenResult where
  code : Nat
  state : SessionState
  sinksRegistered : Bool
  linkOpenCalled : Bool
  threadSpawned : Bool
deriving Repr, DecidableEq

/-- `SerializationTransport::open` (lines 37-87).  `linkOpenCode` is the
status the link layer returns from its own open.  The startup handshake
wait (line 79) is modelled separately as a transition system; here a
successful open simply records the thread as running. -/
def transportOpen (st : SessionState) (linkOpenCode : Nat) : OpenResult :=
  if st.isOpen then
    { code := NRF_ERROR_SD_RPC_SERIALIZATION_TRANSPORT_ALREADY_OPEN
      state := st, sinksRegistered := false, linkOpenCalled := false
      threadSpawned := false }
  else if linkOpenCode ≠ NRF_SUCCESS then
    { code := linkOpenCode, state := st, sinksRegistered := true
      linkOpenCalled := true, threadSpawned := false }
  else
    let st1 := { st with isOpen := true }
    if !st1.threadRunning then
      { code := NRF_SUCCESS
        state := { st1 with processEvents := true, threadRunning := true }
        sinksRegistered := true, linkOpenCalled := true, threadSpawned := true }
    else
      { code := NRF_ERROR_SD_RPC_SERIALIZATION_TRANSPORT, state := st1
        sinksRegistered := true, linkOpenCalled := true, threadSpawned := false }

/-- The observable outcome of one call to `close`: the returned status
code, the session state afterwards, and whether a join of the dispatch
thread was attempted and the link-layer close was invoked. -/
structure CloseResult where
  code : Nat
  state : SessionState
  joinAttempted : Bool
  linkCloseCalled : Bool
deriving Repr, DecidableEq

/-- The tail of `SerializationTransport::close` (lines 119-128): the
already-closed check and the link-layer close.  Returns the status code,
the state afterwards and whether the link-layer close was invoked. -/
def closeRest (st : SessionState) (linkCloseCode : Nat) :
    Nat × SessionState × Bool :=
  if !st.isOpen then
    (NRF_ERROR_SD_RPC_SERIALIZATION_TRANSPORT_ALREADY_CLOSED, st, false)
  else
    (linkCloseCode, { st with isOpen := false }, true)

/-- `SerializationTransport::close` (lines 89-129).  `onDispatchThread`
models `std::this_thread::get_id() == eventThread.get_id()`,
`joinFails` models `eventThread.join()` throwing `std::system_error`,
and `linkCloseCode` is the status the link layer returns from its close. -/
def transportClose (st : SessionState) (onDispatchThread : Bool)
    (joinFails : Bool) (linkCloseCode : Nat) : CloseResult :=
  let st1 := { st with processEvents := false }
  if st1.threadRunning then
    if onDispatchThread then
      { code := NRF_ERROR_SD_RPC_SERIALIZATION_TRANSPORT, state := st1
        joinAttempted := false, linkCloseCalled := false }
    else if joinFails then
      { code := NRF_ERROR_SD_RPC_SERIALIZATION_TRANSPORT_INVALID_STATE
        state := st1, joinAttempted := true, linkCloseCalled := false }
    else
      let st2 := { st1 with threadRunning := false }
      let r := closeRest st2 linkCloseCode
      { code := r.1, state := r.2.1, joinAttempted := true
        linkCloseCalled := r.2.2 }
  else
    let r := closeRest st1 linkCloseCode
    { code := r.1, state := r.2.1, joinAttempted := false
      linkCloseCalled := r.2.2 }

/-!
The startup handshake of `open` (lines 64-80) with the dispatch thread
(`eventHandlingRunner`, lines 199-213) is genuinely concurrent code, so it
is modelled as an interleaving transition system over the two threads:
the opener thread A executing lines 76-79 and the freshly spawned
dispatch thread B executing `eventHandlingRunner` up to its steady-state
wait (line 213).  `eventMutex` and the wait-set of `eventWaitCondition`
are explicit; condition-variable waits are modelled without spurious
wakeups (a waiter leaves the wait only after a notification, and leaves
the wait call only once it has re-acquired the mutex).  The scenario is
the handshake itself: no concurrent `close` or inbound event runs, so
nothing clears `processEvents` or notifies after B reaches its wait.
-/

/-- Program counter of the opener thread A inside lines 76-80:
about to lock `eventMutex`; holding it, about to set `processEvents` and
spawn the thread; about to call `eventWaitCondition.wait`; blocked inside
the wait; returned from the wait (mutex re-acquired), i.e. `open` about
to return `NRF_SUCCESS`. -/
inductive OpenerPc where
  | toLock
  | toSpawn
  | toWait
  | inWait
  | ret
deriving Repr, DecidableEq

/-- Program counter of the dispatch thread B inside `eventHandlingRunner`:
not yet spawned; about to lock `eventMutex` in `drainEventQueue`;
draining with the mutex held; about to re-lock `eventMutex` (line 205);
about to test `processEvents` (line 207); about to `notify_all`
(line 212); about to call `eventWaitCondition.wait` (line 213); parked in
the steady-state wait; terminated via the `processEvents == false` exit
path (line 259's final `notify_all` included). -/
inductive RunnerPc where
  | notSpawned
  | drainLock
  | draining
  | toRelock
  | toCheck
  | toNotify
  | toWait
  | atWait
  | exited
deriving Repr, DecidableEq

/-- A configuration of the handshake transition system: the two program
counters, who holds `eventMutex`, whether the opener sits in the wait-set
of `eventWaitCondition`, and the `processEvents` flag. -/
structure HsConfig where
  pcA : OpenerPc
  pcB : RunnerPc
  heldA : Bool
  heldB : Bool
  aInWaitset : Bool
  processEvents : Bool
deriving Repr, DecidableEq

/-- The interleaving step relation of the handshake, faithful to C++
condition-variable semantics.  Mutex acquisition requires the mutex
free; a condition-variable wait atomically releases the mutex and joins
the wait-set; `notify_all` empties the wait-set; a blocked waiter
resumes either after it has been removed from the wait-set by a
notification (`aWake`) or spuriously (`aWakeSpurious`) — the wait at
line 79 has no predicate, and `std::condition_variable::wait` is
permitted to return spuriously — and in both cases it re-acquires the
mutex and leaves the wait-set before returning. -/
inductive HsStep : HsConfig → HsConfig → Prop where
  | aLock (c : HsConfig) (h : c.pcA = OpenerPc.toLock) (hm : c.heldA = false)
      (hm2 : c.heldB = false) :
      HsStep c { c with pcA := OpenerPc.toSpawn, heldA := true }
  | aSpawn (c : HsConfig) (h : c.pcA = OpenerPc.toSpawn)
      (hb : c.pcB = RunnerPc.notSpawned) :
      HsStep c { c with pcA := OpenerPc.toWait, pcB := RunnerPc.drainLock,
                        processEvents := true }
  | aWaitEntry (c : HsConfig) (h : c.pcA = OpenerPc.toWait) :
      HsStep c { c with pcA := OpenerPc.inWait, heldA := false,
                        aInWaitset := true }
  | aWake (c : HsConfig) (h : c.pcA = OpenerPc.inWait)
      (hw : c.aInWaitset = false) (hm : c.heldA = false)
      (hm2 : c.heldB = false) :
      HsStep c { c with pcA := OpenerPc.ret, heldA := true }
  | aWakeSpurious (c : HsConfig) (h : c.pcA = OpenerPc.inWait)
      (hm : c.heldA = false) (hm2 : c.heldB = false) :
      HsStep c { c with pcA := OpenerPc.ret, heldA := true,
                        aInWaitset := false }
  | bDrainLock (c : HsConfig) (h : c.pcB = RunnerPc.drainLock)
      (hm : c.heldA = false) (hm2 : c.heldB = false) :
      HsStep c { c with pcB := RunnerPc.draining, heldB := true }
  | bDrainDone (c : HsConfig) (h : c.pcB = RunnerPc.draining) :
      HsStep c { c with pcB := RunnerPc.toRelock, heldB := false }
  | bRelock (c : HsConfig) (h : c.pcB = RunnerPc.toRelock)
      (hm : c.heldA = false) (hm2 : c.heldB = false) :
      HsStep c { c with pcB := RunnerPc.toCheck, heldB := true }
  | bCheckTrue (c : HsConfig) (h : c.pcB = RunnerPc.toCheck)
      (hp : c.processEvents = true) :
      HsStep c { c with pcB := RunnerPc.toNotify }
  | bCheckFalse (c : HsConfig) (h : c.pcB = RunnerPc.toCheck)
      (hp : c.processEvents = false) :
      HsStep c { c with pcB := RunnerPc.exited, heldB := false,
                        aInWaitset := false }
  | bNotify (c : HsConfig) (h : c.pcB = RunnerPc.toNotify) :
      HsStep c { c with pcB := RunnerPc.toWait, aInWaitset := false }
  | bWaitEntry (c : HsConfig) (h : c.pcB = RunnerPc.toWait) :
      HsStep c { c with pcB := RunnerPc.atWait, heldB := false }

/-- The restriction of `HsStep` to executions in which the opener's wait
never returns spuriously: a step from the wait to the return while still
in the wait-set (the distinguishing shape of `aWakeSpurious`) is
excluded.  This is the semantics the code's comment at lines 67-75
implicitly assumes; the C++ standard does not guarantee it for the
predicate-less wait at line 79. -/
def HsStepNoSpurious (c c' : HsConfig) : Prop :=
  HsStep c c' ∧
  ¬(c.pcA = OpenerPc.inWait ∧ c.aInWaitset = true ∧ c'.pcA = OpenerPc.ret)

/-- The initial configuration: the opener is at line 76 about to lock
`eventMutex`, the thread is not yet spawned, the mutex is free and
`processEvents` is still `false` (constructor value). -/
def hsInit : HsConfig :=
  { pcA := OpenerPc.toLock, pcB := RunnerPc.notSpawned, heldA := false,
    heldB := false, aInWaitset := false, processEvents := false }

/-- Reachability in the handshake transition system under the faithful
semantics (spurious wakeups permitted). -/
def HsReachable (c : HsConfig) : Prop :=
  Relation.ReflTransGen HsStep hsInit c

/-- Reachability along executions free of spurious wakeups. -/
def HsReachableNoSpurious (c : HsConfig) : Prop :=
  Relation.ReflTransGen HsStepNoSpurious hsInit c

/-- The inductive invariant of the handshake: mutual exclusion of the
mutex, which program points hold the mutex, the spawn/`processEvents`
bookkeeping, and the central wake-ordering facts — while the opener is
parked in the wait it stays in the wait-set until the runner's
`notify_all`, after which the runner still holds the mutex until it has
itself entered the steady-state wait. -/
def HsInv (c : HsConfig) : Prop :=
  (c.heldA = true → c.heldB = false) ∧
  ((c.pcA = OpenerPc.toSpawn ∨ c.pcA = OpenerPc.toWait ∨
      c.pcA = OpenerPc.ret) ↔ c.heldA = true) ∧
  ((c.pcB = RunnerPc.draining ∨ c.pcB = RunnerPc.toCheck ∨
      c.pcB = RunnerPc.toNotify ∨ c.pcB = RunnerPc.toWait) ↔
    c.heldB = true) ∧
  (c.pcB ≠ RunnerPc.notSpawned →
    (c.pcA = OpenerPc.toWait ∨ c.pcA = OpenerPc.inWait ∨
      c.pcA = OpenerPc.ret)) ∧
  (c.pcB ≠ RunnerPc.notSpawned → c.processEvents = true) ∧
  (c.pcA = OpenerPc.toLock ∨ c.pcA = OpenerPc.toSpawn ∨
      c.pcA = OpenerPc.toWait → c.aInWaitset = false) ∧
  (c.pcA = OpenerPc.inWait →
    (c.aInWaitset = true ∨ c.pcB = RunnerPc.toWait ∨
      c.pcB = RunnerPc.atWait)) ∧
  (c.pcA = OpenerPc.ret → c.pcB = RunnerPc.atWait) ∧
  (c.pcB = RunnerPc.exited → False)

/-- The handshake invariant holds initially. -/
theorem hsInv_init : HsInv hsInit := by unfold HsInv; decide

/-- The handshake invariant is preserved by every interleaving step of
an execution free of spurious wakeups. -/
theorem hsInv_preserved {c c' : HsConfig} (hstep : HsStepNoSpurious c c')
    (hinv : HsInv c) : HsInv c' := by
  obtain ⟨hstep, hns⟩ := hstep
  obtain ⟨pcA, pcB, heldA, heldB, aw, pe⟩ := c
  cases hstep <;> simp_all [HsInv]

/-- Every configuration reachable without spurious wakeups satisfies the
invariant. -/
theorem hsInv_reachable {c : HsConfig} (hr : HsReachableNoSpurious c) :
    HsInv c := by
  induction hr with
  | refl => exact hsInv_init
  | tail _ hstep ih => exact hsInv_preserved hstep ih

/-- Along executions in which the predicate-less wait of `open` (line 79)
never returns spuriously, `open` returns only once the dispatch thread
is parked in its steady-state wait — the guarantee the comment at lines
67-75 intends the handshake to provide. -/
theorem open_runner_ready_when_no_spurious_wakeup (c : HsConfig)
    (hr : HsReachableNoSpurious c) (hret : c.pcA = OpenerPc.ret) :
    c.pcB = RunnerPc.atWait :=
  (hsInv_reachable hr).2.2.2.2.2.2.2.1 hret

/-- A spurious-wakeup-free interleaving in which `open` returns,
checked against `open_runner_ready_when_no_spurious_wakeup` at its final
configuration. -/
theorem open_runner_ready_no_spurious_wakeup_trace :
    (⟨OpenerPc.ret, RunnerPc.atWait, true, false, false, true⟩ :
      HsConfig).pcB = RunnerPc.atWait := by
  have t1 : HsStepNoSpurious hsInit
      ⟨OpenerPc.toSpawn, RunnerPc.notSpawned, true, false, false, false⟩ :=
    ⟨HsStep.aLock _ rfl rfl rfl, by decide⟩
  have t2 : HsStepNoSpurious ⟨OpenerPc.toSpawn, RunnerPc.notSpawned, true, false, false, false⟩
      ⟨OpenerPc.toWait, RunnerPc.drainLock, true, false, false, true⟩ :=
    ⟨HsStep.aSpawn _ rfl rfl, by decide⟩
  have t3 : HsStepNoSpurious ⟨OpenerPc.toWait, RunnerPc.drainLock, true, false, false, true⟩
      ⟨OpenerPc.inWait, RunnerPc.drainLock, false, false, true, true⟩ :=
    ⟨HsStep.aWaitEntry _ rfl, by decide⟩
  have t4 : HsStepNoSpurious ⟨OpenerPc.inWait, RunnerPc.drainLock, false, false, true, true⟩
      ⟨OpenerPc.inWait, RunnerPc.draining, false, true, true, true⟩ :=
    ⟨HsStep.bDrainLock _ rfl rfl rfl, by decide⟩
  have t5 : HsStepNoSpurious ⟨OpenerPc.inWait, RunnerPc.draining, false, true, true, true⟩
      ⟨OpenerPc.inWait, RunnerPc.toRelock, false, false, true, true⟩ :=
    ⟨HsStep.bDrainDone _ rfl, by decide⟩
  have t6 : HsStepNoSpurious ⟨OpenerPc.inWait, RunnerPc.toRelock, false, false, true, true⟩
      ⟨OpenerPc.inWait, RunnerPc.toCheck, false, true, true, true⟩ :=
    ⟨HsStep.bRelock _ rfl rfl rfl, by decide⟩
  have t7 : HsStepNoSpurious ⟨OpenerPc.inWait, RunnerPc.toCheck, false, true, true, true⟩
      ⟨OpenerPc.inWait, RunnerPc.toNotify, false, true, true, true⟩ :=
    ⟨HsStep.bCheckTrue _ rfl rfl, by decide⟩
  have t8 : HsStepNoSpurious ⟨OpenerPc.inWait, RunnerPc.toNotify, false, true, true, true⟩
      ⟨OpenerPc.inWait, RunnerPc.toWait, false, true, false, true⟩ :=
    ⟨HsStep.bNotify _ rfl, by decide⟩
  have t9 : HsStepNoSpurious ⟨OpenerPc.inWait, RunnerPc.toWait, false, true, false, true⟩
      ⟨OpenerPc.inWait, RunnerPc.atWait, false, false, false, true⟩ :=
    ⟨HsStep.bWaitEntry _ rfl, by decide⟩
  have t10 : HsStepNoSpurious ⟨OpenerPc.inWait, RunnerPc.atWait, false, false, false, true⟩
      ⟨OpenerPc.ret, RunnerPc.atWait, true, false, false, true⟩ :=
    ⟨HsStep.aWake _ rfl rfl rfl rfl, by decide⟩
  have hreach : HsReachableNoSpurious
      ⟨OpenerPc.ret, RunnerPc.atWait, true, false, false, true⟩ :=
    Relation.ReflTransGen.tail (Relation.ReflTransGen.tail
      (Relation.ReflTransGen.tail (Relation.ReflTransGen.tail
        (Relation.ReflTransGen.tail (Relation.ReflTransGen.tail
          (Relation.ReflTransGen.tail (Relation.ReflTransGen.tail
            (Relation.ReflTransGen.tail (Relation.ReflTransGen.tail
              Relation.ReflTransGen.refl t1) t2) t3) t4) t5) t6) t7) t8) t9) t10
  exact open_runner_ready_when_no_spurious_wakeup _ hreach rfl

/-- C10 (refuted by the code): under the faithful condition-variable
semantics, `open` can return `NRF_SUCCESS` before the dispatch thread
has reached its steady-state wait.  The interleaving: the opener locks
`eventMutex`, sets `processEvents`, spawns the thread, enters the
predicate-less `eventWaitCondition.wait` at line 79 (releasing the
mutex), and the wait returns spuriously — which the C++ standard permits
and no predicate guards against — while the spawned thread is still
about to lock the mutex in `drainEventQueue`.  The final configuration
is reachable, has the opener returned, and has the runner nowhere near
its steady-state wait. -/
theorem open_can_return_before_runner_ready :
    HsReachable
      ⟨OpenerPc.ret, RunnerPc.drainLock, true, false, false, true⟩ ∧
    (⟨OpenerPc.ret, RunnerPc.drainLock, true, false, false, true⟩ :
      HsConfig).pcA = OpenerPc.ret ∧
    (⟨OpenerPc.ret, RunnerPc.drainLock, true, false, false, true⟩ :
      HsConfig).pcB ≠ RunnerPc.atWait := by
  have t1 : HsStep hsInit
      ⟨OpenerPc.toSpawn, RunnerPc.notSpawned, true, false, false, false⟩ :=
    HsStep.aLock _ rfl rfl rfl
  have t2 : HsStep ⟨OpenerPc.toSpawn, RunnerPc.notSpawned, true, false, false, false⟩
      ⟨OpenerPc.toWait, RunnerPc.drainLock, true, false, false, true⟩ :=
    HsStep.aSpawn _ rfl rfl
  have t3 : HsStep ⟨OpenerPc.toWait, RunnerPc.drainLock, true, false, false, true⟩
      ⟨OpenerPc.inWait, RunnerPc.drainLock, false, false, true, true⟩ :=
    HsStep.aWaitEntry _ rfl
  have t4 : HsStep ⟨OpenerPc.inWait, RunnerPc.drainLock, false, false, true, true⟩
      ⟨OpenerPc.ret, RunnerPc.drainLock, true, false, false, true⟩ :=
    HsStep.aWakeSpurious _ rfl rfl rfl
  refine ⟨?_, rfl, by decide⟩
  exact Relation.ReflTransGen.tail (Relation.ReflTransGen.tail
    (Relation.ReflTransGen.tail (Relation.ReflTransGen.tail
      Relation.ReflTransGen.refl t1) t2) t3) t4

/-- Copying `b` into a buffer of capacity at least `b.length` and then
resizing the buffer down to `b.length` yields exactly `b`. -/
theorem resizeTo_copyInto_of_le {b rb : List Byte} (_h : b.length ≤ rb.length) :
    resizeTo b.length (copyInto b rb) = b := by
  unfold resizeTo copyInto
  have h1 : (b ++ rb.drop b.length).take b.length = b := List.take_left b _
  have h2 : b.length - (b ++ rb.drop b.length).length = 0 := by
    simp [List.length_append, List.length_drop]
  rw [h1, h2]
  simp

/-- The frame built by `send` is the tag byte followed by the command
bytes unchanged. -/
theorem framePacket_eq (cmdBuffer : List Byte) (pktType : Byte) :
    framePacket cmdBuffer pktType = pktType :: cmdBuffer := by
  unfold framePacket copyAt
  simp [List.replicate_succ, List.take_succ_cons, List.drop_eq_nil_of_le]
  omega

/-- C6: an inbound payload whose tag is neither `SERIALIZATION_RESPONSE`
nor `SERIALIZATION_EVENT` leaves the session state exactly as it was
(received flag, reply buffer and event queue included), emits only the
unknown-packet warning, and notifies neither the response waiter nor the
dispatch loop. -/
theorem readHandler_unknown_tag_no_state_change (st : SessionState)
    (tag : Byte) (body : List Byte) (h1 : tag ≠ SERIALIZATION_RESPONSE)
    (h2 : tag ≠ SERIALIZATION_EVENT) :
    readHandler st tag body =
      { state := st, logs := [unknownTagLog], notifiedResponse := false,
        notifiedEvent := false } := by
  simp [readHandler, h1, h2]

/-- Witness for C6 at tag 7. -/
theorem readHandler_unknown_tag_no_state_change_witness :
    (7 : Byte) ≠ SERIALIZATION_RESPONSE ∧ (7 : Byte) ≠ SERIALIZATION_EVENT ∧
    readHandler ⟨true, false, some [1, 2], [[3]], true, true⟩ 7 [4, 5] =
      { state := ⟨true, false, some [1, 2], [[3]], true, true⟩,
        logs := [unknownTagLog], notifiedResponse := false,
        notifiedEvent := false } :=
  ⟨by decide, by decide,
    readHandler_unknown_tag_no_state_change _ 7 _ (by decide) (by decide)⟩

/-- C8: an inbound payload tagged `SERIALIZATION_EVENT` appends exactly
the body to the tail of the event queue, leaving every previously queued
entry unchanged and in place, so queue order equals arrival order. -/
theorem readHandler_event_appended_at_tail (st : SessionState)
    (body : List Byte) :
    (readHandler st SERIALIZATION_EVENT body).state.eventQueue =
      st.eventQueue ++ [body] ∧
    (readHandler st SERIALIZATION_EVENT body).state =
      { st with eventQueue := st.eventQueue ++ [body] } := by
  constructor <;> simp [readHandler, SERIALIZATION_EVENT, SERIALIZATION_RESPONSE]

/-- C4: `readHandler` is well defined only for payloads of length at
least one: for such payloads the `size_t` computation `length - 1` equals
the true body length and the tag read `data[0]` is in bounds, while for a
zero-length payload the body length wraps around to `2^64 - 1` and the
tag read has no element to read. -/
theorem readHandler_body_length_requires_nonempty (data : List Byte)
    (h1 : data ≠ []) (h2 : data.length < 2 ^ 64) :
    bodyLengthC data.length = data.length - 1 ∧
    data.head?.isSome = true ∧
    bodyLengthC 0 = 2 ^ 64 - 1 ∧
    ([] : List Byte).head? = none := by
  have hp : (2 : Nat) ^ 64 = 18446744073709551616 := by norm_num
  refine ⟨?_, ?_, ?_, rfl⟩
  · have hlen : 1 ≤ data.length := by
      cases data with
      | nil => exact absurd rfl h1
      | cons a l => simp
    unfold bodyLengthC
    rw [hp] at h2 ⊢
    omega
  · cases data with
    | nil => exact absurd rfl h1
    | cons a l => rfl
  · unfold bodyLengthC
    rw [hp]

/-- C1: if `send` is called on an open session with a non-null, non-empty
reply buffer and the link-layer thread delivers a response-tagged payload
whose body fits the buffer's pre-set capacity before the timeout, then
`send` returns `NRF_SUCCESS` and the reply buffer holds exactly the
response body, resized down to the body's length. -/
theorem send_success_copies_response (st : SessionState)
    (cmd rb b : List Byte) (tag : Byte) (hopen : st.isOpen = true)
    (hne : rb ≠ []) (hlen : b.length ≤ rb.length) :
    (send st cmd (some rb) tag NRF_SUCCESS
        [(SERIALIZATION_RESPONSE, b)]).code = NRF_SUCCESS ∧
    (send st cmd (some rb) tag NRF_SUCCESS
        [(SERIALIZATION_RESPONSE, b)]).state.responseBuffer = some b := by
  have hres := @resizeTo_copyInto_of_le b rb hlen
  cases rb with
  | nil => exact absurd rfl hne
  | cons x xs =>
    simp only [List.length_cons] at hlen
    constructor <;>
      simp [send, deliverAll, readHandler, hopen, hlen, hres]

/-- Witness for C1: a concrete open session, capacity-3 reply buffer and
two-byte response body. -/
theorem send_success_copies_response_witness :
    (⟨true, false, none, [], true, true⟩ : SessionState).isOpen = true ∧
    ([0, 0, 0] : List Byte) ≠ [] ∧
    ([9, 8] : List Byte).length ≤ ([0, 0, 0] : List Byte).length ∧
    ((send ⟨true, false, none, [], true, true⟩ [5, 6] (some [0, 0, 0]) 0
        NRF_SUCCESS [(SERIALIZATION_RESPONSE, [9, 8])]).code = NRF_SUCCESS ∧
      (send ⟨true, false, none, [], true, true⟩ [5, 6] (some [0, 0, 0]) 0
        NRF_SUCCESS [(SERIALIZATION_RESPONSE, [9, 8])]).state.responseBuffer =
        some [9, 8]) :=
  ⟨rfl, by decide, by decide,
    send_success_copies_response _ _ _ _ _ rfl (by decide) (by decide)⟩

/-- C2: if the response body delivered before the timeout is longer than
the reply buffer's pre-set capacity, `send` still returns `NRF_SUCCESS`
(the waiter is signalled and the wait resolves), the reply buffer's
contents and size are exactly as before the call, and the oversized-
response diagnostic is the one log entry of the call. -/
theorem send_oversized_response_buffer_unchanged (st : SessionState)
    (cmd rb b : List Byte) (tag : Byte) (hopen : st.isOpen = true)
    (hne : rb ≠ []) (hlen : rb.length < b.length) :
    (send st cmd (some rb) tag NRF_SUCCESS
        [(SERIALIZATION_RESPONSE, b)]).code = NRF_SUCCESS ∧
    (send st cmd (some rb) tag NRF_SUCCESS
        [(SERIALIZATION_RESPONSE, b)]).state.responseBuffer = some rb ∧
    (send st cmd (some rb) tag NRF_SUCCESS
        [(SERIALIZATION_RESPONSE, b)]).logs = [oversizedResponseLog] ∧
    (send st cmd (some rb) tag NRF_SUCCESS
        [(SERIALIZATION_RESPONSE, b)]).waiterSignaled = true := by
  have hlen' : ¬ b.length ≤ rb.length := by omega
  cases rb with
  | nil => exact absurd rfl hne
  | cons x xs =>
    simp only [List.length_cons] at hlen'
    refine ⟨?_, ?_, ?_, ?_⟩ <;>
      simp [send, deliverAll, readHandler, hopen, hlen']

/-- Witness for C2: a capacity-1 reply buffer and a three-byte response
body. -/
theorem send_oversized_response_buffer_unchanged_witness :
    (⟨true, false, none, [], true, true⟩ : SessionState).isOpen = true ∧
    ([4] : List Byte) ≠ [] ∧
    ([4] : List Byte).length < ([9, 8, 7] : List Byte).length ∧
    ((send ⟨true, false, none, [], true, true⟩ [5] (some [4]) 0 NRF_SUCCESS
        [(SERIALIZATION_RESPONSE, [9, 8, 7])]).code = NRF_SUCCESS ∧
      (send ⟨true, false, none, [], true, true⟩ [5] (some [4]) 0 NRF_SUCCESS
        [(SERIALIZATION_RESPONSE, [9, 8, 7])]).state.responseBuffer = some [4] ∧
      (send ⟨true, false, none, [], true, true⟩ [5] (some [4]) 0 NRF_SUCCESS
        [(SERIALIZATION_RESPONSE, [9, 8, 7])]).logs = [oversizedResponseLog] ∧
      (send ⟨true, false, none, [], true, true⟩ [5] (some [4]) 0 NRF_SUCCESS
        [(SERIALIZATION_RESPONSE, [9, 8, 7])]).waiterSignaled = true) :=
  ⟨rfl, by decide, by decide,
    send_oversized_response_buffer_unchanged _ _ _ _ _ rfl (by decide)
      (by decide)⟩

/-- C9: a size-zero reply buffer provided to `send` is treated by the
demultiplex callback exactly like an absent buffer when a response
arrives: the missing-buffer error is the one log entry, the buffer is
never written or resized (for any response body, a zero-length one
included), yet the received flag is set and the waiter is signalled, so
`send` returns `NRF_SUCCESS`. -/
theorem send_empty_reply_buffer_treated_as_missing (st : SessionState)
    (cmd b : List Byte) (tag : Byte) (hopen : st.isOpen = true) :
    (send st cmd (some []) tag NRF_SUCCESS
        [(SERIALIZATION_RESPONSE, b)]).code = NRF_SUCCESS ∧
    (send st cmd (some []) tag NRF_SUCCESS
        [(SERIALIZATION_RESPONSE, b)]).state.responseBuffer =
      some ([] : List Byte) ∧
    (send st cmd (some []) tag NRF_SUCCESS
        [(SERIALIZATION_RESPONSE, b)]).logs = [missingBufferLog] ∧
    (send st cmd (some []) tag NRF_SUCCESS
        [(SERIALIZATION_RESPONSE, b)]).state.responseReceived = true ∧
    (send st cmd (some []) tag NRF_SUCCESS
        [(SERIALIZATION_RESPONSE, b)]).waiterSignaled = true := by
  refine ⟨?_, ?_, ?_, ?_, ?_⟩ <;>
    simp [send, deliverAll, readHandler, hopen]

/-- Witness for C9 at a zero-length response body. -/
theorem send_empty_reply_buffer_treated_as_missing_witness :
    (⟨true, false, none, [], true, true⟩ : SessionState).isOpen = true ∧
    ((send ⟨true, false, none, [], true, true⟩ [5] (some []) 0 NRF_SUCCESS
        [(SERIALIZATION_RESPONSE, [])]).code = NRF_SUCCESS ∧
      (send ⟨true, false, none, [], true, true⟩ [5] (some []) 0 NRF_SUCCESS
        [(SERIALIZATION_RESPONSE, [])]).state.responseBuffer =
        some ([] : List Byte) ∧
      (send ⟨true, false, none, [], true, true⟩ [5] (some []) 0 NRF_SUCCESS
        [(SERIALIZATION_RESPONSE, [])]).logs = [missingBufferLog] ∧
      (send ⟨true, false, none, [], true, true⟩ [5] (some []) 0 NRF_SUCCESS
        [(SERIALIZATION_RESPONSE, [])]).state.responseReceived = true ∧
      (send ⟨true, false, none, [], true, true⟩ [5] (some []) 0 NRF_SUCCESS
        [(SERIALIZATION_RESPONSE, [])]).waiterSignaled = true) :=
  ⟨rfl, send_empty_reply_buffer_treated_as_missing _ _ _ _ rfl⟩

/-- C3: when `close` runs in the dispatch thread's own execution context
while that thread is joinable, it returns immediately with a status in
the spec's `InvalidState` taxonomy, never attempts to join the thread,
and never reaches the link-layer close. -/
theorem close_on_dispatch_thread_refused (st : SessionState)
    (joinFails : Bool) (linkCloseCode : Nat)
    (h : st.threadRunning = true) :
    isInvalidStateCode (transportClose st true joinFails linkCloseCode).code =
      true ∧
    (transportClose st true joinFails linkCloseCode).joinAttempted = false ∧
    (transportClose st true joinFails linkCloseCode).linkCloseCalled =
      false := by
  refine ⟨?_, ?_, ?_⟩ <;>
    simp [transportClose, isInvalidStateCode, h,
      NRF_ERROR_SD_RPC_SERIALIZATION_TRANSPORT]

/-- Witness for C3 at a concrete open session with a running dispatch
thread. -/
theorem close_on_dispatch_thread_refused_witness :
    (⟨true, false, none, [], true, true⟩ : SessionState).threadRunning =
      true ∧
    (isInvalidStateCode
        (transportClose ⟨true, false, none, [], true, true⟩ true false
          NRF_SUCCESS).code = true ∧
      (transportClose ⟨true, false, none, [], true, true⟩ true false
          NRF_SUCCESS).joinAttempted = false ∧
      (transportClose ⟨true, false, none, [], true, true⟩ true false
          NRF_SUCCESS).linkCloseCalled = false) :=
  ⟨rfl, close_on_dispatch_thread_refused _ false NRF_SUCCESS rfl⟩

/-- C5: on an open session the payload `send` hands to the link layer is
exactly the one-byte tag followed by the command bytes unchanged — a
frame of length one more than the command whose head is the tag — for
every command body, tag value, link-layer send outcome, reply-buffer
choice and delivery schedule. -/
theorem send_forwards_tag_prefixed_frame (st : SessionState)
    (cmd : List Byte) (rsp : Option (List Byte)) (tag : Byte)
    (linkSendCode : Nat) (arrivals : List (Byte × List Byte))
    (hopen : st.isOpen = true) :
    framePacket cmd tag = tag :: cmd ∧
    (framePacket cmd tag).length = cmd.length + 1 ∧
    (send st cmd rsp tag linkSendCode arrivals).sentPayload =
      some (tag :: cmd) := by
  refine ⟨framePacket_eq cmd tag, by simp [framePacket_eq], ?_⟩
  unfold send
  rw [framePacket_eq]
  simp only [hopen, Bool.not_true, Bool.false_eq_true, if_false]
  by_cases hl : linkSendCode = NRF_SUCCESS
  · simp only [hl, ne_eq, not_true_eq_false, if_false]
    cases rsp with
    | none => rfl
    | some rb =>
      simp only []
      split <;> rfl
  · simp [hl]

/-- Witness for C5 at a concrete open session and command. -/
theorem send_forwards_tag_prefixed_frame_witness :
    (⟨true, false, none, [], true, true⟩ : SessionState).isOpen = true ∧
    (framePacket [10, 11] 3 = 3 :: [10, 11] ∧
      (framePacket [10, 11] 3).length = ([10, 11] : List Byte).length + 1 ∧
      (send ⟨true, false, none, [], true, true⟩ [10, 11] none 3 NRF_SUCCESS
          []).sentPayload = some (3 :: [10, 11])) :=
  ⟨rfl, send_forwards_tag_prefixed_frame _ _ none 3 NRF_SUCCESS [] rfl⟩

/-- C7: `open` on an already-open session returns the already-open code
with no side effects at all — state untouched, no sink registration, no
link-layer open, no thread spawn — and `close` on an already-closed
session (dispatch thread not running) returns the already-closed code
without invoking the link-layer close. -/
theorem open_already_open_close_already_closed (st st2 : SessionState)
    (linkOpenCode linkCloseCode : Nat) (onDispatchThread joinFails : Bool)
    (h1 : st.isOpen = true) (h2 : st2.isOpen = false)
    (h3 : st2.threadRunning = false) :
    transportOpen st linkOpenCode =
      { code := NRF_ERROR_SD_RPC_SERIALIZATION_TRANSPORT_ALREADY_OPEN,
        state := st, sinksRegistered := false, linkOpenCalled := false,
        threadSpawned := false } ∧
    (transportClose st2 onDispatchThread joinFails linkCloseCode).code =
      NRF_ERROR_SD_RPC_SERIALIZATION_TRANSPORT_ALREADY_CLOSED ∧
    (transportClose st2 onDispatchThread joinFails
        linkCloseCode).linkCloseCalled = false := by
  refine ⟨?_, ?_, ?_⟩ <;>
    simp [transportOpen, transportClose, closeRest, h1, h2, h3]

/-- Witness for C7 at concrete open and closed sessions. -/
theorem open_already_open_close_already_closed_witness :
    (⟨true, false, none, [], true, true⟩ : SessionState).isOpen = true ∧
    (⟨false, false, none, [], false, false⟩ : SessionState).isOpen = false ∧
    (⟨false, false, none, [], false, false⟩ : SessionState).threadRunning =
      false ∧
    (transportOpen ⟨true, false, none, [], true, true⟩ NRF_SUCCESS =
      { code := NRF_ERROR_SD_RPC_SERIALIZATION_TRANSPORT_ALREADY_OPEN,
        state := ⟨true, false, none, [], true, true⟩,
        sinksRegistered := false, linkOpenCalled := false,
        threadSpawned := false } ∧
      (transportClose ⟨false, false, none, [], false, false⟩ false false
          NRF_SUCCESS).code =
        NRF_ERROR_SD_RPC_SERIALIZATION_TRANSPORT_ALREADY_CLOSED ∧
      (transportClose ⟨false, false, none, [], false, false⟩ false false
          NRF_SUCCESS).linkCloseCalled = false) :=
  ⟨rfl, rfl, rfl,
    open_already_open_close_already_closed _ _ NRF_SUCCESS NRF_SUCCESS false
      false rfl rfl rfl⟩

/-- Witness for C4 at the two-byte payload `[3, 4]`. -/
theorem readHandler_body_length_requires_nonempty_witness :
    ([3, 4] : List Byte) ≠ [] ∧ ([3, 4] : List Byte).length < 2 ^ 64 ∧
    (bodyLengthC ([3, 4] : List Byte).length =
        ([3, 4] : List Byte).length - 1 ∧
      ([3, 4] : List Byte).head?.isSome = true ∧
      bodyLengthC 0 = 2 ^ 64 - 1 ∧
      ([] : List Byte).head? = none) :=
  ⟨by decide, by decide,
    readHandler_body_length_requires_nonempty [3, 4] (by decide) (by decide)⟩
